import Mathlib

/-!
Shallow embedding of the rexiv2 boundary layer (src/src/lib.rs).

rexiv2 wraps the native gexiv2/Exiv2 metadata engine.  Because the engine is
an opaque external collaborator, each wrapped function is embedded as a pure
Lean function of the values the native calls would produce (return codes,
out-parameter contents, C-string decode results), and where a claim concerns
which native calls happen (allocation/free protocols), the embedding also
returns the list of native operations the Rust body performs, in order.

Conventions:
  * `Except String String` stands for the result of `ffi::CStr::to_str` on a
    native string: `.ok s` when the bytes are valid UTF-8, `.error e` when
    they are not (`e` is the `Utf8Error` diagnostic, kept abstract as text).
  * `Option` on a native pointer means null (`none`) vs non-null (`some`).
  * C integers are `Int`; the `as i32` cast is modelled explicitly.
-/

namespace Rexiv2

/-- `Rexiv2Error` from src/src/lib.rs: `NoValue`, `Utf8(str::Utf8Error)`
(the decode-failure case; the payload abstracts the `Utf8Error` diagnostic),
and `Internal(Option<String>)`. -/
inductive Rexiv2Error where
  | NoValue : Rexiv2Error
  | Utf8 : String → Rexiv2Error
  | Internal : Option String → Rexiv2Error
deriving DecidableEq, Repr

/-- The crate's `Result<T>` specialised to `Rexiv2Error`. -/
abbrev RResult (α : Type) := Except Rexiv2Error α

/-- `int_bool_to_result` from src/src/lib.rs: `0 => Err(Internal(None))`,
any other value `=> Ok(())`. -/
def int_bool_to_result (success : Int) : RResult Unit :=
  if success = 0 then .error (.Internal none) else .ok ()

/-- The GError idiom shared by `new_from_path` / `new_from_buffer` /
`new_from_app1_segment` / `save_to_file` / `set_thumbnail_from_file`:
when the native call does not return 1, decode the out-parameter's message
with `CStr::to_str`, and build `Internal(err_msg.ok().map(to_string))`. -/
def gerror_classify (ok : Int) (errMsg : Except String String) : RResult Unit :=
  if ok ≠ 1 then .error (.Internal errMsg.toOption)
  else .ok ()

/-- The null-pointer idiom shared by the string-returning accessors
(`get_tag_string`, `get_media_type`, `get_tag_label`, ...): a null native
pointer becomes `Err(NoValue)`; a non-null pointer is decoded with
`CStr::to_str`, whose failure becomes the `Utf8` error. -/
def null_classify (ptr : Option (Except String String)) : RResult String :=
  match ptr with
  | none => .error .NoValue
  | some (.error e) => .error (.Utf8 e)
  | some (.ok s) => .ok s

/-- `MediaType` from src/src/lib.rs. -/
inductive MediaType where
  | Bmp | CanonCr2 | CanonCrw | Eps | FujiRaf | Gif | Jp2 | Jpeg
  | MinoltaMrw | OlympusOrf | Png | Psd | PanasonicRw2 | Tga | Tiff
  | Other : String → MediaType
deriving DecidableEq, Repr

/-- `impl From<&MediaType> for String` from src/src/lib.rs. -/
def MediaType.toStr : MediaType → String
  | .Bmp => "image/x-ms-bmp"
  | .CanonCr2 => "image/x-canon-cr2"
  | .CanonCrw => "image/x-canon-crw"
  | .Eps => "application/postscript"
  | .FujiRaf => "image/x-fuji-raf"
  | .Gif => "image/gif"
  | .Jp2 => "image/jp2"
  | .Jpeg => "image/jpeg"
  | .MinoltaMrw => "image/x-minolta-mrw"
  | .OlympusOrf => "image/x-olympus-orf"
  | .Png => "image/png"
  | .Psd => "image/x-photoshop"
  | .PanasonicRw2 => "image/x-panasonic-rw2"
  | .Tga => "image/targa"
  | .Tiff => "image/tiff"
  | .Other s => s

/-- `impl From<&str> for MediaType` from src/src/lib.rs (a `match` on the
string; the Rust literal-pattern match is a sequence of equality tests). -/
def MediaType.fromStr (t : String) : MediaType :=
  if t = "image/x-ms-bmp" then .Bmp
  else if t = "image/x-canon-cr2" then .CanonCr2
  else if t = "image/x-canon-crw" then .CanonCrw
  else if t = "application/postscript" then .Eps
  else if t = "image/x-fuji-raf" then .FujiRaf
  else if t = "image/gif" then .Gif
  else if t = "image/jp2" then .Jp2
  else if t = "image/jpeg" then .Jpeg
  else if t = "image/x-minolta-mrw" then .MinoltaMrw
  else if t = "image/x-olympus-orf" then .OlympusOrf
  else if t = "image/png" then .Png
  else if t = "image/x-photoshop" then .Psd
  else if t = "image/x-panasonic-rw2" then .PanasonicRw2
  else if t = "image/targa" then .Tga
  else if t = "image/tiff" then .Tiff
  else .Other t

/-- The fifteen canonical media-type strings recognized by
`impl From<&str> for MediaType` (the literal patterns of its match). -/
def canonicalMediaStrings : List String :=
  ["image/x-ms-bmp", "image/x-canon-cr2", "image/x-canon-crw",
   "application/postscript", "image/x-fuji-raf", "image/gif", "image/jp2",
   "image/jpeg", "image/x-minolta-mrw", "image/x-olympus-orf", "image/png",
   "image/x-photoshop", "image/x-panasonic-rw2", "image/targa", "image/tiff"]

/-- `TagType` from src/src/lib.rs. -/
inductive TagType where
  | UnsignedByte | AsciiString | UnsignedShort | UnsignedLong
  | UnsignedRational | SignedByte | Undefined | SignedShort | SignedLong
  | SignedRational | TiffFloat | TiffDouble | TiffIfd | String | Date | Time
  | Comment | Directory | XmpText | XmpAlt | XmpBag | XmpSeq | LangAlt
  | Invalid | Unknown
deriving DecidableEq, Repr

/-- The `match tag_type` of `get_tag_type` in src/src/lib.rs: the literal
string patterns, with the wildcard arm giving `TagType::Unknown`. -/
def tagTypeOfName (s : String) : TagType :=
  if s = "Byte" then .UnsignedByte
  else if s = "Ascii" then .AsciiString
  else if s = "Short" then .UnsignedShort
  else if s = "Long" then .UnsignedLong
  else if s = "Rational" then .UnsignedRational
  else if s = "SByte" then .SignedByte
  else if s = "Undefined" then .Undefined
  else if s = "SShort" then .SignedShort
  else if s = "SLong" then .SignedLong
  else if s = "SRational" then .SignedRational
  else if s = "Float" then .TiffFloat
  else if s = "Double" then .TiffDouble
  else if s = "Ifd" then .TiffIfd
  else if s = "String" then .String
  else if s = "Date" then .Date
  else if s = "Time" then .Time
  else if s = "Comment" then .Comment
  else if s = "Directory" then .Directory
  else if s = "XmpText" then .XmpText
  else if s = "XmpAlt" then .XmpAlt
  else if s = "XmpBag" then .XmpBag
  else if s = "XmpSeq" then .XmpSeq
  else if s = "LangAlt" then .LangAlt
  else if s = "Invalid" then .Invalid
  else .Unknown

/-- The literal type-name strings that `get_tag_type`'s match recognizes
(its non-wildcard patterns, in source order). -/
def recognizedTypeNames : List String :=
  ["Byte", "Ascii", "Short", "Long", "Rational", "SByte", "Undefined",
   "SShort", "SLong", "SRational", "Float", "Double", "Ifd", "String",
   "Date", "Time", "Comment", "Directory", "XmpText", "XmpAlt", "XmpBag",
   "XmpSeq", "LangAlt", "Invalid"]

/-- `get_tag_type` from src/src/lib.rs, as a function of what the native
`gexiv2_metadata_get_tag_type` call returns for the tag: a null pointer
(`none`), or a pointer whose `CStr::to_str` decode succeeds or fails.
Null gives `Err(NoValue)`, a decode failure propagates via `?` as the
`Utf8` error, and any decoded string is classified by `tagTypeOfName`,
always returning `Ok`. -/
def get_tag_type (native : Option (Except String String)) : RResult TagType :=
  match native with
  | none => .error .NoValue
  | some (.error e) => .error (.Utf8 e)
  | some (.ok s) => .ok (tagTypeOfName s)

/-- `num_rational::Ratio<i32>`: a plain numerator/denominator pair.
`new_raw` (used by the crate's doctests) is the bare constructor `⟨n, d⟩`. -/
structure Ratio where
  numer : Int
  denom : Int
deriving DecidableEq, Repr

/-- `num_rational::Ratio::new`, the constructor `get_tag_rational` uses:
it puts the fraction in reduced normal form (divides both components by
their gcd and makes the denominator positive).  `num_rational` panics on a
zero denominator; the embedding is only applied with a nonzero one. -/
def Ratio.mkNew (n d : Int) : Ratio :=
  let g : Int := Int.gcd n d
  let n' := n / g
  let d' := d / g
  if d' < 0 then ⟨-n', -d'⟩ else ⟨n', d'⟩

/-- The `(numerator, denominator)` pair that `set_tag_rational` in
src/src/lib.rs passes to `gexiv2_metadata_set_exif_tag_rational`:
`*value.numer()` and `*value.denom()`, verbatim from the given ratio. -/
def set_tag_rational_args (value : Ratio) : Int × Int :=
  (value.numer, value.denom)

/-- `get_tag_rational` from src/src/lib.rs, as a function of the native
`gexiv2_metadata_get_exif_tag_rational` call's boolean return and its two
out-parameters: return 0 gives `None`, anything else gives
`Some(Ratio::new(num, den))`. -/
def get_tag_rational (ret : Int) (num den : Int) : Option Ratio :=
  if ret = 0 then none else some (Ratio.mkNew num den)

/-- The `as i32` cast applied to the native `c_long` in `get_tag_numeric`. -/
def toI32 (x : Int) : Int :=
  (x + 2 ^ 31) % 2 ^ 32 - 2 ^ 31

/-- `get_tag_numeric` from src/src/lib.rs: it returns the value of the
native `gexiv2_metadata_get_tag_long` call cast `as i32`, directly at type
`i32` — there is no `Option` in its signature. -/
def get_tag_numeric (nativeLong : Int) : Int :=
  toI32 nativeLong

/-!
Array marshaling.  A native null-terminated array of C strings is embedded
as the list of its entries, each entry being the `CStr::to_str` outcome for
that element (`.ok s` valid text, `.error e` invalid bytes).
-/

/-- `free_array_of_pointers` from src/src/lib.rs applied to an array with
`n` (non-null) entries: it frees each of the `n` element pointers by
walking to the null terminator, then frees the array spine itself.
Result: (number of element pointers freed, spine freed?). -/
def free_array_of_pointers (n : Nat) : Nat × Bool :=
  (n, true)

/-- The walking loop shared verbatim by `get_exif_tags`, `get_xmp_tags`,
`get_iptc_tags` and `get_tag_multiple_strings` in src/src/lib.rs: push each
decoded entry; at the first entry whose decode fails, stop with that
`Utf8` error (`Rexiv2Error::from(e)`); at the null terminator return the
accumulated list. -/
def walk_c_array : List (Except String String) → RResult (List String)
  | [] => .ok []
  | .ok v :: rest =>
    match walk_c_array rest with
    | .ok vs => .ok (v :: vs)
    | .error e => .error e
  | .error e :: _ => .error (.Utf8 e)

/-- Outcome of one array-returning accessor call: its result, how many
element pointers it freed, and whether it freed the array spine. -/
structure ArrayCallOutcome where
  result : RResult (List String)
  freedElems : Nat
  freedSpine : Bool
deriving Repr

/-- `get_exif_tags` from src/src/lib.rs, as a function of the entries of
the native array returned by `gexiv2_metadata_get_exif_tags`.  Both the
first-undecodable-entry branch and the success branch call
`free_array_of_pointers` on the whole array (all elements plus the spine)
before returning. -/
def get_exif_tags (entries : List (Except String String)) : ArrayCallOutcome :=
  let freed := free_array_of_pointers entries.length
  { result := walk_c_array entries, freedElems := freed.1, freedSpine := freed.2 }

/-- `get_xmp_tags` from src/src/lib.rs (same body shape as
`get_exif_tags`, on `gexiv2_metadata_get_xmp_tags`). -/
def get_xmp_tags (entries : List (Except String String)) : ArrayCallOutcome :=
  let freed := free_array_of_pointers entries.length
  { result := walk_c_array entries, freedElems := freed.1, freedSpine := freed.2 }

/-- `get_iptc_tags` from src/src/lib.rs (same body shape as
`get_exif_tags`, on `gexiv2_metadata_get_iptc_tags`). -/
def get_iptc_tags (entries : List (Except String String)) : ArrayCallOutcome :=
  let freed := free_array_of_pointers entries.length
  { result := walk_c_array entries, freedElems := freed.1, freedSpine := freed.2 }

/-- `get_tag_multiple_strings` from src/src/lib.rs: unlike the tag-listing
accessors it first checks the native array pointer for null
(`Err(NoValue)`, nothing allocated so nothing freed); otherwise it walks
and frees exactly as `get_exif_tags` does. -/
def get_tag_multiple_strings (native : Option (List (Except String String))) :
    ArrayCallOutcome :=
  match native with
  | none => { result := .error .NoValue, freedElems := 0, freedSpine := false }
  | some entries =>
    let freed := free_array_of_pointers entries.length
    { result := walk_c_array entries, freedElems := freed.1, freedSpine := freed.2 }

/-!
Opening a handle.  `new_from_path`, `new_from_buffer` and
`new_from_app1_segment` all allocate a context with
`gexiv2_metadata_new()`, attempt the load, and on a return other than 1
build `Internal(err_msg.ok().map(to_string))` from the GError
out-parameter and return it.  The embedding records the native operations
the Rust body performs, in order, so the allocation/free protocol of the
failure path is visible.
-/

/-- The native operations an open constructor can perform. -/
inductive NativeOp where
  | metadata_new : NativeOp
  | open_path : NativeOp
  | open_buf : NativeOp
  | from_app1_segment : NativeOp
  | metadata_free : NativeOp
deriving DecidableEq, Repr

/-- The `Metadata` wrapper struct: it owns the raw context pointer
(modelled as an identifier). -/
structure Metadata where
  raw : Nat
deriving DecidableEq, Repr

/-- `new_from_path` from src/src/lib.rs, as a function of the context
pointer `gexiv2_metadata_new` returns, the return value of
`gexiv2_metadata_open_path`, and the decode outcome of the GError
message.  Returns the Rust result together with the list of native calls
the body performed, in order. -/
def new_from_path (ctx : Nat) (ok : Int) (errMsg : Except String String) :
    RResult Metadata × List NativeOp :=
  if ok ≠ 1 then
    (.error (.Internal errMsg.toOption), [.metadata_new, .open_path])
  else
    (.ok ⟨ctx⟩, [.metadata_new, .open_path])

/-- `new_from_buffer` from src/src/lib.rs (same shape as `new_from_path`,
via `gexiv2_metadata_open_buf`). -/
def new_from_buffer (ctx : Nat) (ok : Int) (errMsg : Except String String) :
    RResult Metadata × List NativeOp :=
  if ok ≠ 1 then
    (.error (.Internal errMsg.toOption), [.metadata_new, .open_buf])
  else
    (.ok ⟨ctx⟩, [.metadata_new, .open_buf])

/-- `new_from_app1_segment` from src/src/lib.rs (same shape as
`new_from_path`, via `gexiv2_metadata_from_app1_segment`). -/
def new_from_app1_segment (ctx : Nat) (ok : Int) (errMsg : Except String String) :
    RResult Metadata × List NativeOp :=
  if ok ≠ 1 then
    (.error (.Internal errMsg.toOption), [.metadata_new, .from_app1_segment])
  else
    (.ok ⟨ctx⟩, [.metadata_new, .from_app1_segment])

/-- Number of context allocations (`gexiv2_metadata_new`) in a trace. -/
def countAllocs (tr : List NativeOp) : Nat :=
  tr.countP (· = .metadata_new)

/-- Number of context releases (`gexiv2_metadata_free`) in a trace. -/
def countFrees (tr : List NativeOp) : Nat :=
  tr.countP (· = .metadata_free)

/-!
GPS.  `GpsInfo` holds three `f64` coordinates; the wrapper performs no
arithmetic on them (they pass through the out-parameters unchanged), so
they are embedded as rationals.
-/

/-- `GpsInfo` from src/src/lib.rs. -/
structure GpsInfo where
  longitude : ℚ
  latitude : ℚ
  altitude : ℚ
deriving DecidableEq, Repr

/-- `get_gps_info` from src/src/lib.rs, as a function of the native
`gexiv2_metadata_get_gps_info` call's return value and out-parameters:
return 0 gives `None`, anything else packs the three out-parameters into
`Some(GpsInfo { .. })`. -/
def get_gps_info (ret : Int) (lon lat alt : ℚ) : Option GpsInfo :=
  if ret = 0 then none
  else some { longitude := lon, latitude := lat, altitude := alt }

/-!
XMP namespace registry.  The registry lives inside the native engine (not
in this repository); only the thin wrappers are in src/src/lib.rs.
-/

/-- Modelled from the spec: the native engine's process-wide XMP namespace
table ("registering a duplicate or unregistering a non-existent namespace
is an `Internal` error"), keyed by namespace URI.  `register` on a URI
already present fails (returns 0) and leaves the table unchanged;
otherwise it adds the URI and returns 1. -/
def engine_register_ns (table : List String) (name : String) :
    Int × List String :=
  if name ∈ table then (0, table) else (1, name :: table)

/-- Modelled from the spec: unregistering a namespace URI that is present
removes it and returns 1; unregistering one that is absent fails
(returns 0) and leaves the table unchanged. -/
def engine_unregister_ns (table : List String) (name : String) :
    Int × List String :=
  if name ∈ table then (1, table.erase name) else (0, table)

/-- `register_xmp_namespace` from src/src/lib.rs: it passes the name and
the given prefix string to `gexiv2_metadata_register_xmp_namespace` and
maps the returned int through `int_bool_to_result`.  (The prefix plays no
role in duplicate detection, which is keyed by the namespace URI.) -/
def register_xmp_namespace (table : List String) (name pfx : String) :
    RResult Unit × List String :=
  let call := engine_register_ns table name
  let _ := pfx
  (int_bool_to_result call.1, call.2)

/-- `unregister_xmp_namespace` from src/src/lib.rs: passes the name to
`gexiv2_metadata_unregister_xmp_namespace` and maps the returned int
through `int_bool_to_result`. -/
def unregister_xmp_namespace (table : List String) (name : String) :
    RResult Unit × List String :=
  let call := engine_unregister_ns table name
  (int_bool_to_result call.1, call.2)

/-!
Preview images.  `PreviewImage::get_data` and `PreviewImage::save_to_file`
both call `gexiv2_metadata_get_preview_image(self.metadata.raw, self.raw)`
to derive a transient native image object, use it once, and call
`gexiv2_preview_image_free` on it before returning.
-/

/-- The native operations a `PreviewImage` data/save call can perform. -/
inductive PreviewOp where
  | derive_image : PreviewOp
  | image_get_data : PreviewOp
  | image_write_file : PreviewOp
  | image_free : PreviewOp
deriving DecidableEq, Repr

/-- `PreviewImage::get_data` from src/src/lib.rs, as a function of what
`gexiv2_preview_image_get_data` returns (null, or a byte buffer of the
reported size).  The derived image object is freed after the result is
computed, on the success and the error path alike, and the pair
(result, native-call trace in order) is returned. -/
def preview_get_data (native : Option (List Nat)) :
    RResult (List Nat) × List PreviewOp :=
  let result : RResult (List Nat) :=
    match native with
    | none => .error .NoValue
    | some bytes => .ok bytes
  (result, [.derive_image, .image_get_data, .image_free])

/-- `PreviewImage::save_to_file` from src/src/lib.rs, as a function of the
byte count `gexiv2_preview_image_write_file` returns and the size reported
by `get_size`.  The derived image is freed right after the write call;
then a write count different from the expected size yields
`Internal(None)`. -/
def preview_save_to_file (written : Int) (size : Int) :
    RResult Unit × List PreviewOp :=
  let result : RResult Unit :=
    if written ≠ size then .error (.Internal none) else .ok ()
  (result, [.derive_image, .image_write_file, .image_free])

/-! Helper lemmas about the array walk and the tag-type table. -/

/-- Walking an array whose entries all decode yields the full decoded list. -/
lemma walk_c_array_map_ok (ss : List String) :
    walk_c_array (ss.map Except.ok) = .ok ss := by
  induction ss with
  | nil => rfl
  | cons s rest ih => simp [walk_c_array, ih]

/-- Walking an array stops at the first undecodable entry with its
`Utf8` error. -/
lemma walk_c_array_first_error (pre : List String) (e : String)
    (post : List (Except String String)) :
    walk_c_array (pre.map Except.ok ++ Except.error e :: post)
      = .error (.Utf8 e) := by
  induction pre with
  | nil => rfl
  | cons s rest ih => simp [walk_c_array, ih]

/-- A string matching none of the 24 literal patterns of `get_tag_type`'s
match falls to the wildcard arm, `TagType::Unknown`. -/
lemma tagTypeOfName_eq_unknown_of_not_mem (s : String)
    (hs : s ∉ recognizedTypeNames) : tagTypeOfName s = TagType.Unknown := by
  simp only [recognizedTypeNames, List.mem_cons, List.not_mem_nil, or_false,
    not_or] at hs
  obtain ⟨n1, n2, n3, n4, n5, n6, n7, n8, n9, n10, n11, n12, n13, n14, n15,
    n16, n17, n18, n19, n20, n21, n22, n23, n24⟩ := hs
  simp only [tagTypeOfName, if_neg n1, if_neg n2, if_neg n3, if_neg n4,
    if_neg n5, if_neg n6, if_neg n7, if_neg n8, if_neg n9, if_neg n10,
    if_neg n11, if_neg n12, if_neg n13, if_neg n14, if_neg n15, if_neg n16,
    if_neg n17, if_neg n18, if_neg n19, if_neg n20, if_neg n21, if_neg n22,
    if_neg n23, if_neg n24]

/-- Any string that `tagTypeOfName` does not send to `Unknown` is one of
the 24 literal patterns of `get_tag_type`'s match. -/
lemma tagTypeOfName_ne_unknown_mem (s : String)
    (h : tagTypeOfName s ≠ TagType.Unknown) : s ∈ recognizedTypeNames := by
  by_contra hs
  exact h (tagTypeOfName_eq_unknown_of_not_mem s hs)

/-! Claim theorems. -/

/-- C4: the MediaType/string mapping round-trips losslessly in both
directions — every recognized (non-`Other`) variant decodes back from its
canonical string (and re-encoding is the identity on that string), and
every string outside the fifteen canonical ones decodes to `Other` and
re-encodes to exactly itself. -/
theorem mediaType_string_round_trip :
    (∀ t : MediaType, (∀ s, t ≠ MediaType.Other s) →
      MediaType.fromStr (MediaType.toStr t) = t ∧
      MediaType.toStr (MediaType.fromStr (MediaType.toStr t))
        = MediaType.toStr t) ∧
    (∀ s : String, s ∉ canonicalMediaStrings →
      MediaType.fromStr s = MediaType.Other s ∧
      MediaType.toStr (MediaType.fromStr s) = s) := by
  constructor
  · intro t ht
    cases t <;> first
      | exact absurd rfl (ht _)
      | exact ⟨by decide, by decide⟩
  · intro s hs
    have h : MediaType.fromStr s = MediaType.Other s := by
      simp only [canonicalMediaStrings, List.mem_cons, List.not_mem_nil,
        or_false, not_or] at hs
      obtain ⟨n1, n2, n3, n4, n5, n6, n7, n8, n9, n10, n11, n12, n13, n14,
        n15⟩ := hs
      simp only [MediaType.fromStr, if_neg n1, if_neg n2, if_neg n3,
        if_neg n4, if_neg n5, if_neg n6, if_neg n7, if_neg n8, if_neg n9,
        if_neg n10, if_neg n11, if_neg n12, if_neg n13, if_neg n14,
        if_neg n15]
    exact ⟨h, by rw [h, MediaType.toStr]⟩

/-- C4 witness: the round trip evaluated at the recognized type `Png` and
at the unrecognized string "video/mp4". -/
theorem mediaType_string_round_trip_witness :
    MediaType.fromStr (MediaType.toStr MediaType.Png) = MediaType.Png ∧
    MediaType.fromStr "video/mp4" = MediaType.Other "video/mp4" ∧
    MediaType.toStr (MediaType.fromStr "video/mp4") = "video/mp4" :=
  ⟨(mediaType_string_round_trip.1 MediaType.Png
      (fun _ h => MediaType.noConfusion h)).1,
   (mediaType_string_round_trip.2 "video/mp4" (by decide)).1,
   (mediaType_string_round_trip.2 "video/mp4" (by decide)).2⟩

/-- C1 counterexample: `set_tag_rational` does pass the pair (16, 10) to
the engine verbatim, but `get_tag_rational` rebuilds the value with
`num_rational::Ratio::new`, which reduces, so an engine-stored (16, 10)
reads back as the pair (8, 5) — not as (16, 10) as the claim states. -/
theorem rational_16_10_reads_back_reduced :
    set_tag_rational_args ⟨16, 10⟩ = (16, 10) ∧
    get_tag_rational 1 16 10 = some ⟨8, 5⟩ ∧
    get_tag_rational 1 16 10 ≠ some ⟨16, 10⟩ :=
  ⟨rfl, by decide, by decide⟩

/-- C1 amended: the setter passes the numerator/denominator pair to the
engine verbatim (never reduced), while the getter returns
`Ratio::new(num, den)` of the engine's pair — the reduced normal form,
mathematically equal to the stored ratio; for a stored (16, 10) the pair
read back is (8, 5), with 8/5 = 16/10 by cross-multiplication. -/
theorem rational_set_verbatim_get_normalized :
    (∀ value : Ratio,
      set_tag_rational_args value = (value.numer, value.denom)) ∧
    (∀ num den : Int,
      get_tag_rational 1 num den = some (Ratio.mkNew num den)) ∧
    get_tag_rational 1 16 10 = some ⟨8, 5⟩ ∧
    (Ratio.mkNew 16 10).numer * 10 = 16 * (Ratio.mkNew 16 10).denom :=
  ⟨fun _ => rfl, fun _ _ => rfl, by decide, by decide⟩

/-- C3 counterexample: `get_tag_numeric` has no optional result at all —
evaluated at the engine's absence sentinel (native long 0) it returns the
plain number 0, indistinguishable from a genuinely stored zero, rather
than a sentinel-derived `None`. -/
theorem get_tag_numeric_conflates_absence :
    get_tag_numeric 0 = 0 :=
  rfl

/-- C3 amended: `get_tag_rational` does return a sentinel-derived `None`
(on a boolean-false return from the rational accessor), but
`get_tag_numeric` returns the engine's long cast to `i32` directly, so for
it absence is conflated with zero at the return type. -/
theorem rational_none_numeric_plain :
    (∀ num den : Int, get_tag_rational 0 num den = none) ∧
    (∀ ret num den : Int, ret ≠ 0 →
      get_tag_rational ret num den = some (Ratio.mkNew num den)) ∧
    get_tag_numeric 0 = 0 :=
  ⟨fun _ _ => rfl,
   fun _ _ _ h => by simp [get_tag_rational, h],
   rfl⟩

/-- C3 amended witness: absence and presence of a rational value, and the
numeric accessor at the absence sentinel. -/
theorem rational_none_numeric_plain_witness :
    get_tag_rational 0 7 3 = none ∧
    get_tag_rational 2 7 3 = some (Ratio.mkNew 7 3) ∧
    get_tag_numeric 0 = 0 :=
  ⟨rational_none_numeric_plain.1 7 3,
   rational_none_numeric_plain.2.1 2 7 3 (by decide),
   rational_none_numeric_plain.2.2⟩

/-- C2: evaluating the three open constructors at the failing input (the
native load call returns 0 with decodable GError message "unsupported
format") shows the code returns the `Internal` error while its native-call
trace contains the `gexiv2_metadata_new` allocation but no
`gexiv2_metadata_free` — the failure path leaks the allocated context,
contradicting the claim. -/
theorem open_failure_leaks_context :
    (new_from_buffer 1 0 (Except.ok "unsupported format")).1
      = .error (.Internal (some "unsupported format")) ∧
    countAllocs (new_from_buffer 1 0 (Except.ok "unsupported format")).2
      = 1 ∧
    countFrees (new_from_buffer 1 0 (Except.ok "unsupported format")).2
      = 0 ∧
    countAllocs (new_from_path 1 0 (Except.ok "unsupported format")).2
      = 1 ∧
    countFrees (new_from_path 1 0 (Except.ok "unsupported format")).2
      = 0 ∧
    countAllocs
      (new_from_app1_segment 1 0 (Except.ok "unsupported format")).2 = 1 ∧
    countFrees
      (new_from_app1_segment 1 0 (Except.ok "unsupported format")).2 = 0 :=
  ⟨rfl, by decide, by decide, by decide, by decide, by decide, by decide⟩

/-- C5: for every array-returning accessor, both the first-undecodable-
entry path and the success path free every element pointer of the native
array plus the array spine; when the entries all decode the complete owned
list is returned, and at the first undecodable entry the call returns the
decode-failure (`Utf8`) error carrying no partial list of the entries
decoded so far.  `get_xmp_tags`, `get_iptc_tags` and (on a non-null array)
`get_tag_multiple_strings` behave identically to `get_exif_tags`. -/
theorem array_accessors_atomic :
    ∀ entries : List (Except String String),
      (get_exif_tags entries).freedElems = entries.length ∧
      (get_exif_tags entries).freedSpine = true ∧
      get_xmp_tags entries = get_exif_tags entries ∧
      get_iptc_tags entries = get_exif_tags entries ∧
      get_tag_multiple_strings (some entries) = get_exif_tags entries ∧
      (∀ ss : List String, entries = ss.map Except.ok →
        (get_exif_tags entries).result = .ok ss) ∧
      (∀ (pre : List String) (e : String)
          (post : List (Except String String)),
        entries = pre.map Except.ok ++ Except.error e :: post →
        (get_exif_tags entries).result = .error (.Utf8 e) ∧
        ∀ l : List String, (get_exif_tags entries).result ≠ .ok l) := by
  intro entries
  refine ⟨rfl, rfl, rfl, rfl, rfl, ?_, ?_⟩
  · rintro ss rfl
    exact walk_c_array_map_ok ss
  · rintro pre e post rfl
    have h1 :
        (get_exif_tags (pre.map Except.ok ++ Except.error e :: post)).result
          = .error (.Utf8 e) := walk_c_array_first_error pre e post
    refine ⟨h1, fun l hl => ?_⟩
    rw [h1] at hl
    exact Except.noConfusion hl

/-- C5 witness: a fully decodable one-entry array yields its list, and an
array whose second entry is undecodable yields the `Utf8` error. -/
theorem array_accessors_atomic_witness :
    (get_exif_tags [Except.ok "Exif.Image.DateTime"]).result
      = .ok ["Exif.Image.DateTime"] ∧
    (get_exif_tags
        [Except.ok "A", Except.error "bad byte", Except.ok "B"]).result
      = .error (.Utf8 "bad byte") :=
  ⟨(array_accessors_atomic [Except.ok "Exif.Image.DateTime"]).2.2.2.2.2.1
      ["Exif.Image.DateTime"] rfl,
   ((array_accessors_atomic
        [Except.ok "A", Except.error "bad byte", Except.ok "B"]).2.2.2.2.2.2
      ["A"] "bad byte" [Except.ok "B"] rfl).1⟩

/-- C6: the three native failure idioms map exactly as claimed — in the
boolean-with-GError idiom a failing return yields `Internal(Some(msg))`
for a present, decodable message and `Internal(None)` otherwise (shown
both for the shared classifier and for `new_from_path` itself); in the
int-sentinel idiom 0 yields `Internal(None)` and any nonzero value
succeeds; in the null-pointer idiom a null return yields `NoValue`. -/
theorem error_idioms_classified :
    (∀ (ok : Int) (m : String), ok ≠ 1 →
      gerror_classify ok (Except.ok m) = .error (.Internal (some m))) ∧
    (∀ (ok : Int) (e : String), ok ≠ 1 →
      gerror_classify ok (Except.error e) = .error (.Internal none)) ∧
    (∀ (ctx : Nat) (ok : Int) (msg : Except String String), ok ≠ 1 →
      (new_from_path ctx ok msg).1 = .error (.Internal msg.toOption)) ∧
    int_bool_to_result 0 = .error (.Internal none) ∧
    (∀ n : Int, n ≠ 0 → int_bool_to_result n = .ok ()) ∧
    null_classify none = .error .NoValue := by
  refine ⟨?_, ?_, ?_, rfl, ?_, rfl⟩
  · intro ok m h
    simp [gerror_classify, h, Except.toOption]
  · intro ok e h
    simp [gerror_classify, h, Except.toOption]
  · intro ctx ok msg h
    simp [new_from_path, h]
  · intro n h
    simp [int_bool_to_result, h]

/-- C6 witness: the three idioms evaluated at concrete failing and
succeeding native outcomes. -/
theorem error_idioms_classified_witness :
    gerror_classify 0 (Except.ok "boom") = .error (.Internal (some "boom")) ∧
    gerror_classify 0 (Except.error "bad") = .error (.Internal none) ∧
    (new_from_path 5 0 (Except.ok "boom")).1
      = .error (.Internal (some "boom")) ∧
    int_bool_to_result 3 = .ok () :=
  ⟨error_idioms_classified.1 0 "boom" (by decide),
   error_idioms_classified.2.1 0 "bad" (by decide),
   error_idioms_classified.2.2.1 5 0 (Except.ok "boom") (by decide),
   error_idioms_classified.2.2.2.2.1 3 (by decide)⟩

/-- C7: when the engine signals absence of GPS tags (its GPS accessor
returns the sentinel 0), `get_gps_info` returns `None` whatever the
out-parameters hold; and whenever it returns `Some` of the all-zero
`GpsInfo`, the engine's return was nonzero — the zero value is never a
stand-in for absence. -/
theorem gps_absence_is_none :
    (∀ lon lat alt : ℚ, get_gps_info 0 lon lat alt = none) ∧
    (∀ (ret : Int) (lon lat alt : ℚ),
      get_gps_info ret lon lat alt
        = some { longitude := 0, latitude := 0, altitude := 0 } →
      ret ≠ 0) := by
  constructor
  · intro lon lat alt
    rfl
  · intro ret lon lat alt h h0
    subst h0
    simp [get_gps_info] at h

/-- C7 witness: the absence sentinel with nonzero out-parameters gives
`None`, and a returned all-zero `GpsInfo` comes from a nonzero engine
return. -/
theorem gps_absence_is_none_witness :
    get_gps_info 0 1 2 3 = none ∧ (1 : Int) ≠ 0 :=
  ⟨gps_absence_is_none.1 1 2 3,
   gps_absence_is_none.2 1 0 0 0 (by decide)⟩

/-- C8: against the spec-modelled process-wide namespace table, registering
a fresh namespace URI succeeds with `Ok(())`; registering the identical URI
again fails with `Internal(None)`; unregistering a URI that is not
registered fails with `Internal(None)`; and unregistering a registered URI
and then re-registering it both succeed. -/
theorem xmp_namespace_register_cycle :
    ∀ (table : List String) (name pfx : String), name ∉ table →
      (register_xmp_namespace table name pfx).1 = .ok () ∧
      (register_xmp_namespace (register_xmp_namespace table name pfx).2
          name pfx).1 = .error (.Internal none) ∧
      (unregister_xmp_namespace table name).1 = .error (.Internal none) ∧
      (unregister_xmp_namespace (register_xmp_namespace table name pfx).2
          name).1 = .ok () ∧
      (register_xmp_namespace
          (unregister_xmp_namespace
            (register_xmp_namespace table name pfx).2 name).2
          name pfx).1 = .ok () := by
  intro table name pfx h
  have hreg : (register_xmp_namespace table name pfx).2 = name :: table := by
    simp [register_xmp_namespace, engine_register_ns, h]
  refine ⟨?_, ?_, ?_, ?_, ?_⟩
  · simp [register_xmp_namespace, engine_register_ns, h, int_bool_to_result]
  · rw [hreg]
    simp [register_xmp_namespace, engine_register_ns, int_bool_to_result]
  · simp [unregister_xmp_namespace, engine_unregister_ns, h,
      int_bool_to_result]
  · rw [hreg]
    simp [unregister_xmp_namespace, engine_unregister_ns, int_bool_to_result]
  · rw [hreg]
    have herase : (unregister_xmp_namespace (name :: table) name).2 = table := by
      simp [unregister_xmp_namespace, engine_unregister_ns,
        List.erase_cons_head]
    rw [herase]
    simp [register_xmp_namespace, engine_register_ns, h, int_bool_to_result]

/-- C8 witness: the register/duplicate/unregister/re-register scenario run
on the empty table with the "cc" prefix and a creative-commons URI. -/
theorem xmp_namespace_register_cycle_witness :
    (register_xmp_namespace [] "http://creativecommons.org/ns#/" "cc").1
      = .ok () ∧
    (register_xmp_namespace
        (register_xmp_namespace [] "http://creativecommons.org/ns#/" "cc").2
        "http://creativecommons.org/ns#/" "cc").1
      = .error (.Internal none) ∧
    (unregister_xmp_namespace [] "http://creativecommons.org/ns#/").1
      = .error (.Internal none) :=
  ⟨(xmp_namespace_register_cycle [] "http://creativecommons.org/ns#/" "cc"
      (by decide)).1,
   (xmp_namespace_register_cycle [] "http://creativecommons.org/ns#/" "cc"
      (by decide)).2.1,
   (xmp_namespace_register_cycle [] "http://creativecommons.org/ns#/" "cc"
      (by decide)).2.2.1⟩

/-- C9: every `PreviewImage::get_data` and `PreviewImage::save_to_file`
call derives the transient native image exactly once, frees it exactly
once, the free is the last native call before returning, and the trace is
the same on the success and the error path — the transient object never
survives the call (nothing is cached across calls: each call's trace
contains its own derive). -/
theorem preview_calls_transient :
    ∀ (native : Option (List Nat)) (written size : Int),
      (preview_get_data native).2
        = [.derive_image, .image_get_data, .image_free] ∧
      (preview_save_to_file written size).2
        = [.derive_image, .image_write_file, .image_free] ∧
      (preview_get_data native).2.count PreviewOp.derive_image = 1 ∧
      (preview_get_data native).2.count PreviewOp.image_free = 1 ∧
      (preview_save_to_file written size).2.count PreviewOp.derive_image
        = 1 ∧
      (preview_save_to_file written size).2.count PreviewOp.image_free
        = 1 ∧
      (preview_get_data native).2.getLast? = some PreviewOp.image_free ∧
      (preview_save_to_file written size).2.getLast?
        = some PreviewOp.image_free ∧
      (preview_get_data none).1 = .error .NoValue ∧
      (∀ bytes, (preview_get_data (some bytes)).1 = .ok bytes) ∧
      (written ≠ size →
        (preview_save_to_file written size).1 = .error (.Internal none)) ∧
      (written = size → (preview_save_to_file written size).1 = .ok ()) := by
  intro native written size
  refine ⟨rfl, rfl, rfl, rfl, rfl, rfl, rfl, rfl,
    rfl, fun _ => rfl, ?_, ?_⟩
  · intro h
    simp [preview_save_to_file, h]
  · intro h
    simp [preview_save_to_file, h]

/-- C9 witness: the transient protocol evaluated on a concrete data buffer
and on a failing and a succeeding save. -/
theorem preview_calls_transient_witness :
    (preview_get_data (some [1, 2])).2.getLast?
      = some PreviewOp.image_free ∧
    (preview_save_to_file 3 4).1 = .error (.Internal none) ∧
    (preview_save_to_file 4 4).1 = .ok () :=
  ⟨(preview_calls_transient (some [1, 2]) 3 4).2.2.2.2.2.2.1,
   (preview_calls_transient (some [1, 2]) 3 4).2.2.2.2.2.2.2.2.2.2.1
      (by decide),
   (preview_calls_transient (some [1, 2]) 4 4).2.2.2.2.2.2.2.2.2.2.2 rfl⟩

/-- C10 counterexample: there are not 25 recognized type-name strings —
no 25 distinct strings all escape the wildcard `Unknown` arm, because
every string not sent to `Unknown` is among the 24 literal patterns of
`get_tag_type`'s match. -/
theorem tag_type_names_not_25 :
    ¬ ∃ L : List String, L.length = 25 ∧ L.Nodup ∧
        ∀ s ∈ L, tagTypeOfName s ≠ TagType.Unknown := by
  rintro ⟨L, hlen, hnd, hmem⟩
  have hsub : L ⊆ recognizedTypeNames := fun s hs =>
    tagTypeOfName_ne_unknown_mem s (hmem s hs)
  have h1 : L.toFinset.card = 25 := by
    rw [List.toFinset_card_of_nodup hnd, hlen]
  have h2 : L.toFinset ⊆ recognizedTypeNames.toFinset := by
    intro x hx
    rw [List.mem_toFinset] at hx ⊢
    exact hsub hx
  have h3 : recognizedTypeNames.toFinset.card ≤ 24 :=
    le_trans (List.toFinset_card_le recognizedTypeNames) (by decide)
  have h4 := Finset.card_le_card h2
  omega

/-- C10 amended: `get_tag_type` is total over decoded engine type names —
any valid type-name string gives `Ok`; exactly 24 recognized type-name
strings each map to their dedicated (pairwise distinct) `TagType` variant,
and every other string maps to `TagType::Unknown`, never an error. -/
theorem tag_type_total_over_names :
    (∀ s : String,
      get_tag_type (some (Except.ok s)) = .ok (tagTypeOfName s)) ∧
    recognizedTypeNames.length = 24 ∧
    recognizedTypeNames.Nodup ∧
    recognizedTypeNames.map tagTypeOfName
      = [.UnsignedByte, .AsciiString, .UnsignedShort, .UnsignedLong,
         .UnsignedRational, .SignedByte, .Undefined, .SignedShort,
         .SignedLong, .SignedRational, .TiffFloat, .TiffDouble, .TiffIfd,
         .String, .Date, .Time, .Comment, .Directory, .XmpText, .XmpAlt,
         .XmpBag, .XmpSeq, .LangAlt, .Invalid] ∧
    (recognizedTypeNames.map tagTypeOfName).Nodup ∧
    (∀ s : String, s ∉ recognizedTypeNames →
      tagTypeOfName s = TagType.Unknown) := by
  refine ⟨fun s => rfl, by decide, by decide, by decide, by decide, ?_⟩
  intro s hs
  exact tagTypeOfName_eq_unknown_of_not_mem s hs

/-- C10 amended witness: `get_tag_type` on the decoded name "Byte" and the
wildcard behavior on an unrecognized name. -/
theorem tag_type_total_over_names_witness :
    get_tag_type (some (Except.ok "Byte")) = .ok (tagTypeOfName "Byte") ∧
    tagTypeOfName "NotAType" = TagType.Unknown :=
  ⟨tag_type_total_over_names.1 "Byte",
   tag_type_total_over_names.2.2.2.2.2 "NotAType" (by decide)⟩

end Rexiv2
